import Mathlib

/-!
Verification development for the tenant–property matching engine of the
`final-year-project-backend` repository.

The embedding models the TypeScript sources directly:

* `src/services/LinearProgrammingService.ts` (greedy revision, the current
  service file): `calculateBudgetScore`, `calculateLocationScore`,
  `calculateAmenityScore`, `calculateSizeScore`, `calculateFeatureScore`,
  `calculateUtilityScore`, `calculateSatisfactionScore`, `validateWeights`,
  `greedyMatchingAlgorithm`, `optimizeMatching`, `optimizeTenantMatching`,
  `getConstraintsSatisfied`, `calculateObjectiveValue`, `createEmptyResult`.
* the earlier "linear programming" revision of the same service (kept in the
  repository next to the current one): `lpCalculateBudgetScore`,
  `buildConstraintColumn`, `checkFeasibility`, `solveLPProblem`,
  `convertSolutionToMatches`.
* `PerformanceMonitoringService`: `recordMetrics`, `getAlgorithmPerformance`,
  `getEfficiencyScore`.

Modelling conventions:

* JavaScript numbers are modelled as exact rationals (`ℚ`).  All arithmetic
  performed by the service on realistic inputs is exact addition,
  subtraction, multiplication and division, so `ℚ` is faithful except for
  division by zero: where the source can divide by zero the embedding makes
  the JS `Infinity`/`NaN` outcome explicit (see `calculateBudgetScore` and
  `jsDivQ`).
* JavaScript strings are modelled as `List Char` (`Str`); `String.prototype.includes`
  is `jsIncludes`, `split(" ")` is `splitOnSpace`, `toLowerCase` is `lower`.
* `undefined`/`null` record fields are modelled with `Option`; JS falsiness of
  `0` and `""` is encoded at each use site exactly as the source tests it.
* `Array.prototype.sort` is stable in JavaScript (ES2019); it is modelled by
  the stable insertion sort `sSortBy`, whose output (sorted by the comparator
  with ties in input order) is the unique stable-sort result.
* `Math.round` is `jsRound` (`⌊x + 1/2⌋`, exactly JS semantics); `Math.min`,
  `Math.max` and `Math.abs` are `jsMin`, `jsMax`, `jsAbs`.
* Wall-clock quantities (`Date.now()` execution times, `calculatedAt`
  timestamps) and the human-readable explanation strings are outside the
  model; every other field of the results is carried.
* The process-wide telemetry store (`PerformanceMonitoringService.metrics`)
  is threaded through the service entry points as explicit state, so that
  "which calls append a record" is visible in the embedding.
-/

namespace RentMatch

/-! ## JavaScript string primitives -/

abbrev Str := List Char

/-- `toLowerCase`. -/
def lower (s : Str) : Str := s.map Char.toLower

/-- Leading-block test used by `jsIncludes`: the needle occurs at the head. -/
def firstMatch : Str → Str → Bool
  | a :: as, b :: bs => a == b && firstMatch as bs
  | needle, _ => needle.isEmpty

/-- `hay.includes(needle)` of JavaScript: the needle occurs contiguously. -/
def jsIncludes : Str → Str → Bool
  | [], needle => needle.isEmpty
  | h :: t, needle => firstMatch needle (h :: t) || jsIncludes t needle

/-- `s.split(" ")` of JavaScript: split on single spaces, keeping empty parts
(`"".split(" ") = [""]`). -/
def splitOnSpace : Str → List Str
  | [] => [[]]
  | c :: cs =>
    match splitOnSpace cs with
    | w :: ws => if c = ' ' then [] :: w :: ws else (c :: w) :: ws
    | [] => [[c]]

/-- Convenience for writing `Str` literals. -/
def str (s : String) : Str := s.data

/-- `Math.max` on two exact numbers. -/
def jsMax (a b : ℚ) : ℚ := if a < b then b else a

/-- `Math.min` on two exact numbers. -/
def jsMin (a b : ℚ) : ℚ := if b < a then b else a

/-- `Math.abs` on an exact number. -/
def jsAbs (q : ℚ) : ℚ := if q < 0 then -q else q

/-- `Math.round`: JavaScript rounds to `⌊x + 1/2⌋`. -/
def jsRound (q : ℚ) : ℤ := ⌊q + 1 / 2⌋

/-! ## Data model

Mirrors the Mongoose documents consumed by the service (`Property`,
tenant preferences) and the service's own `OptimizationConstraints`,
`OptimizationWeights`, `PropertyMatch` and `OptimizationResult` types.
`_id` values and flag-map keys are compared only for equality, so they are
kept as Lean `String`s; text that is scored (locations, amenities) is `Str`.
-/

structure Budget where
  min : ℚ
  max : ℚ
  deriving DecidableEq, Repr

/-- `property.location`; `city`/`address` may be absent (the source guards
them with `?.` and `|| ""`). -/
structure PropLocation where
  address : Option Str
  city : Option Str
  deriving DecidableEq, Repr

/-- Feature / utility boolean maps (`{ [key: string]: boolean }`). -/
abbrev FlagMap := List (String × Bool)

structure Property where
  _id : String
  rent : ℚ
  location : PropLocation
  bedrooms : ℕ
  bathrooms : ℕ
  size : Option ℚ
  amenities : List Str
  features : Option FlagMap
  utilities : Option FlagMap
  status : String
  deriving DecidableEq, Repr

/-- `OptimizationConstraints`.  `location = []` models both an empty string
and an absent field (both falsy in the source's `if (!preferredLocation)`). -/
structure Constraints where
  budget : Budget
  location : Str
  amenities : List Str
  bedrooms : ℕ
  bathrooms : ℕ
  features : Option FlagMap
  utilities : Option FlagMap
  tenantId : Option String
  deriving DecidableEq, Repr

/-- `OptimizationWeights`. -/
structure Weights where
  budget : ℚ
  location : ℚ
  amenities : ℚ
  size : ℚ
  features : ℚ
  utilities : ℚ
  deriving DecidableEq, Repr

/-- `Partial<OptimizationWeights>` passed by callers. -/
structure PartialWeights where
  budget : Option ℚ := none
  location : Option ℚ := none
  amenities : Option ℚ := none
  size : Option ℚ := none
  features : Option ℚ := none
  utilities : Option ℚ := none
  deriving DecidableEq, Repr

/-- `{ ...this.defaultWeights, ...weights }`. -/
def mergeWeights (d : Weights) (ov : PartialWeights) : Weights where
  budget := ov.budget.getD d.budget
  location := ov.location.getD d.location
  amenities := ov.amenities.getD d.amenities
  size := ov.size.getD d.size
  features := ov.features.getD d.features
  utilities := ov.utilities.getD d.utilities

/-- The service's configuration fields, read once from the environment:
`defaultWeights`, `maxExecutionTime` (ms) and `minMatchThreshold`. -/
structure Config where
  defaultWeights : Weights
  maxExecutionTime : ℕ
  minMatchThreshold : ℚ
  deriving DecidableEq, Repr

/-- The hard-coded environment defaults
(`LP_DEFAULT_WEIGHTS_* = 0.25/0.2/0.15/0.15/0.15/0.1`). -/
def defaultWeights : Weights :=
  { budget := 25/100, location := 2/10, amenities := 15/100
    size := 15/100, features := 15/100, utilities := 1/10 }

/-- Defaults `LP_MAX_EXECUTION_TIME = 30000`, `MIN_MATCH_SCORE_THRESHOLD = 30`. -/
def defaultConfig : Config :=
  { defaultWeights := defaultWeights, maxExecutionTime := 30000, minMatchThreshold := 30 }

/-! ## Scoring model (greedy revision of `LinearProgrammingService.ts`) -/

/-- `calculateBudgetScore` (greedy revision): 100 inside the range, linear
decay to 0 at 50% outside it.  In the out-of-range branches the source
divides by `budget.min * 0.5` (resp. `max`); when that threshold is `0` the
JS quotient is `Infinity` (the numerator `diff` is strictly positive there),
so `100 - Infinity` clamps to `0` under `Math.max(0, ·)` — the embedding
writes that case out explicitly. -/
def calculateBudgetScore (rent : ℚ) (budget : Budget) : ℚ :=
  if budget.min ≤ rent ∧ rent ≤ budget.max then 100
  else if rent < budget.min then
    let diff := budget.min - rent
    let threshold := budget.min * (1/2)
    if threshold = 0 then 0 else jsMax 0 (100 - diff / threshold * 100)
  else if budget.max < rent then
    let diff := rent - budget.max
    let threshold := budget.max * (1/2)
    if threshold = 0 then 0 else jsMax 0 (100 - diff / threshold * 100)
  else 0

/-- `propertyLocation.city?.toLowerCase() || ""`. -/
def lowerOpt (s : Option Str) : Str := (s.map lower).getD []

def locCity (loc : PropLocation) : Str := lowerOpt loc.city

def locAddress (loc : PropLocation) : Str := lowerOpt loc.address

def locPreferred (pref : Str) : Str := lower pref

def locCityWords (loc : PropLocation) : List Str := splitOnSpace (locCity loc)

def locPreferredWords (pref : Str) : List Str := splitOnSpace (locPreferred pref)

/-- `matchingWords`: city words sharing a substring relation with some word of
the preference. -/
def locMatchingWords (loc : PropLocation) (pref : Str) : List Str :=
  (locCityWords loc).filter fun word =>
    (locPreferredWords pref).any fun pWord =>
      jsIncludes pWord word || jsIncludes word pWord

/-- `calculateLocationScore`: 100 on a city/preference containment, 80 on an
address containment, else `matchingWords / preferredWords * 60`, floor 20. -/
def calculateLocationScore (loc : PropLocation) (preferredLocation : Str) : ℚ :=
  if preferredLocation.isEmpty then 100
  else if jsIncludes (locCity loc) (locPreferred preferredLocation)
       || jsIncludes (locPreferred preferredLocation) (locCity loc) then 100
  else if jsIncludes (locAddress loc) (locPreferred preferredLocation) then 80
  else if 0 < (locMatchingWords loc preferredLocation).length then
    ((locMatchingWords loc preferredLocation).length : ℚ)
      / ((locPreferredWords preferredLocation).length : ℚ) * 60
  else 20

/-- `calculateAmenityScore`: fraction of required amenities with a
case-insensitive substring match among the property's amenities. -/
def calculateAmenityScore (propertyAmenities : List Str) (requiredAmenities : List Str) : ℚ :=
  if requiredAmenities.isEmpty then 100
  else
    let availableAmenities := propertyAmenities.map lower
    let required := requiredAmenities.map lower
    let matchingAmenities := required.filter fun amenity =>
      availableAmenities.any fun available =>
        jsIncludes available amenity || jsIncludes amenity available
    (matchingAmenities.length : ℚ) / (required.length : ℚ) * 100

/-- `calculateSizeScore`.  `if (!property.size)` is a JS falsiness test, so
both an absent size and a recorded size of `0` yield the neutral 70. -/
def calculateSizeScore (property : Property) (constraints : Constraints) : ℚ :=
  match property.size with
  | none => 70
  | some s =>
    if s = 0 then 70
    else
      let idealSize : ℚ := (constraints.bedrooms : ℚ) * 40 + 20
      let sizeDifference := jsAbs (s - idealSize)
      let maxDifference := idealSize * (1/2)
      jsMax 0 (100 - sizeDifference / maxDifference * 100)

/-- JS truthiness of `map[key]` for a boolean map: present and `true`. -/
def flagTruthy (m : FlagMap) (k : String) : Bool :=
  ((m.find? fun e => e.1 == k).map Prod.snd).getD false

/-- The `forEach` of `calculateFeatureScore` counts preference entries with
value `true` and, among those, the ones whose property flag is truthy; the
two counters are expressed as filters of the same entry list. -/
def requiredTrueFlags (req : FlagMap) : FlagMap := req.filter fun e => e.2

def matchedTrueFlags (propFlags : FlagMap) (req : FlagMap) : FlagMap :=
  (requiredTrueFlags req).filter fun e => flagTruthy propFlags e.1

/-- `calculateFeatureScore`: 100 with no preference or no property map,
else the fraction of required `true` flags that the property satisfies. -/
def calculateFeatureScore (propertyFeatures : Option FlagMap)
    (requiredFeatures : Option FlagMap) : ℚ :=
  match requiredFeatures, propertyFeatures with
  | none, _ => 100
  | _, none => 100
  | some req, some pf =>
    if (requiredTrueFlags req).length = 0 then 100
    else ((matchedTrueFlags pf req).length : ℚ) / ((requiredTrueFlags req).length : ℚ) * 100

/-- `calculateUtilityScore`: textually identical to `calculateFeatureScore`
in the source. -/
def calculateUtilityScore (propertyUtilities : Option FlagMap)
    (requiredUtilities : Option FlagMap) : ℚ :=
  match requiredUtilities, propertyUtilities with
  | none, _ => 100
  | _, none => 100
  | some req, some pu =>
    if (requiredTrueFlags req).length = 0 then 100
    else ((matchedTrueFlags pu req).length : ℚ) / ((requiredTrueFlags req).length : ℚ) * 100

/-- `calculateSatisfactionScore`: weighted combination of the six sub-scores,
clamped to `[0, 100]`. -/
def calculateSatisfactionScore (property : Property) (constraints : Constraints)
    (weights : Weights) : ℚ :=
  let totalScore :=
    weights.budget * calculateBudgetScore property.rent constraints.budget +
    weights.location * calculateLocationScore property.location constraints.location +
    weights.amenities * calculateAmenityScore property.amenities constraints.amenities +
    weights.size * calculateSizeScore property constraints +
    weights.features * calculateFeatureScore property.features constraints.features +
    weights.utilities * calculateUtilityScore property.utilities constraints.utilities
  jsMin 100 (jsMax 0 totalScore)

/-! ## Stable sorting

`Array.prototype.sort` is stable, so its output is fully determined by the
comparator: ordered by the comparator's strict precedence with ties kept in
input order.  `sSortBy lt` is a stable insertion sort for a strict
precedence predicate `lt` ("must come earlier"): each element is inserted
after every earlier-ranked element and before the first element it does not
strictly follow, which keeps equal-ranked elements in input order. -/

def sInsert {A : Type} (lt : A → A → Bool) (x : A) : List A → List A
  | [] => [x]
  | y :: ys => if lt y x then y :: sInsert lt x ys else x :: y :: ys

def sSortBy {A : Type} (lt : A → A → Bool) (l : List A) : List A :=
  l.foldr (sInsert lt) []

/-! ## Greedy assignment (greedy revision, `greedyMatchingAlgorithm`) -/

/-- Raw (unrounded) sub-scores stored in a pair's `details`. -/
structure SubScores where
  budgetScore : ℚ
  locationScore : ℚ
  amenityScore : ℚ
  sizeScore : ℚ
  featureScore : ℚ
  utilityScore : ℚ
  deriving DecidableEq, Repr

def subScores (property : Property) (constraints : Constraints) : SubScores where
  budgetScore := calculateBudgetScore property.rent constraints.budget
  locationScore := calculateLocationScore property.location constraints.location
  amenityScore := calculateAmenityScore property.amenities constraints.amenities
  sizeScore := calculateSizeScore property constraints
  featureScore := calculateFeatureScore property.features constraints.features
  utilityScore := calculateUtilityScore property.utilities constraints.utilities

/-- One entry of `allPairs` in `greedyMatchingAlgorithm`. -/
structure ScoredPair where
  tenantId : String
  property : Property
  score : ℚ
  details : SubScores
  deriving DecidableEq, Repr

/-- `matchDetails`: the rounded sub-scores. -/
structure MatchDetails where
  budgetScore : ℤ
  locationScore : ℤ
  amenityScore : ℤ
  sizeScore : ℤ
  featureScore : ℤ
  utilityScore : ℤ
  deriving DecidableEq, Repr

def roundDetails (d : SubScores) : MatchDetails where
  budgetScore := jsRound d.budgetScore
  locationScore := jsRound d.locationScore
  amenityScore := jsRound d.amenityScore
  sizeScore := jsRound d.sizeScore
  featureScore := jsRound d.featureScore
  utilityScore := jsRound d.utilityScore

/-- `PropertyMatch` (without the explanation strings and the `calculatedAt`
wall-clock timestamp, which are outside the model). -/
structure PropertyMatch where
  propertyId : String
  tenantId : Option String
  matchScore : ℤ
  matchDetails : MatchDetails
  deriving DecidableEq, Repr

/-- The single pseudo-tenant id `tenantConstraints.tenantId || 'current-tenant'`. -/
def greedyTenantId (constraints : Constraints) : String :=
  constraints.tenantId.getD "current-tenant"

/-- `allPairs` of `greedyMatchingAlgorithm`: every (tenant, property) pair —
with the single pseudo-tenant built from the constraints — whose
satisfaction score clears `minMatchThreshold`, in property order, carrying
the raw sub-scores as `details`. -/
def eligiblePairs (cfg : Config) (constraints : Constraints) (properties : List Property)
    (weights : Weights) : List ScoredPair :=
  properties.filterMap fun property =>
    let score := calculateSatisfactionScore property constraints weights
    if cfg.minMatchThreshold ≤ score then
      some { tenantId := greedyTenantId constraints, property := property
             score := score, details := subScores property constraints }
    else none

/-- Comparator `(a, b) => b.score - a.score`: `a` strictly precedes `b` iff
`a.score > b.score`. -/
def pairLt (a b : ScoredPair) : Bool := decide (b.score < a.score)

def sortPairsDesc (l : List ScoredPair) : List ScoredPair := sSortBy pairLt l

/-- Build the `PropertyMatch` pushed for a committed pair. -/
def mkMatch (pair : ScoredPair) : PropertyMatch where
  propertyId := pair.property._id
  tenantId := some pair.tenantId
  matchScore := jsRound pair.score
  matchDetails := roundDetails pair.details

/-- The greedy commitment loop over the sorted pairs: stop at `maxResults`
matches, skip a pair whose tenant or property is already assigned, otherwise
commit it and mark both sides assigned. -/
def greedyLoop (maxResults : ℕ) :
    List ScoredPair → List String → List String → List PropertyMatch → List PropertyMatch
  | [], _, _, matchList => matchList
  | pair :: rest, assignedTenants, assignedProperties, matchList =>
    if maxResults ≤ matchList.length then matchList
    else if assignedTenants.contains pair.tenantId then
      greedyLoop maxResults rest assignedTenants assignedProperties matchList
    else if assignedProperties.contains pair.property._id then
      greedyLoop maxResults rest assignedTenants assignedProperties matchList
    else
      greedyLoop maxResults rest (pair.tenantId :: assignedTenants)
        (pair.property._id :: assignedProperties) (matchList ++ [mkMatch pair])

/-- `greedyMatchingAlgorithm`: score all pairs, keep those clearing the
threshold, stable-sort descending by score, then commit greedily. -/
def greedyMatchingAlgorithm (cfg : Config) (tenantConstraints : Constraints)
    (properties : List Property) (weights : Weights) (maxResults : ℕ) : List PropertyMatch :=
  greedyLoop maxResults (sortPairsDesc (eligiblePairs cfg tenantConstraints properties weights))
    [] [] []

/-- The spec's description of single-requester selection, for comparison with
the implementation: sort the scored eligible candidates descending by
composite score and take the first `maxResults`. -/
def specTopKMatches (cfg : Config) (constraints : Constraints) (properties : List Property)
    (weights : Weights) (maxResults : ℕ) : List PropertyMatch :=
  ((sortPairsDesc (eligiblePairs cfg constraints properties weights)).take maxResults).map mkMatch

/-! ## Service entry points (greedy revision) -/

/-- Structured stand-ins for the template error strings thrown by
`validateWeights`. -/
inductive WeightError where
  | sumNotOne (sum : ℚ)
  | outOfRange (component : String) (value : ℚ)
  deriving DecidableEq, Repr

def sumW (w : Weights) : ℚ :=
  w.budget + w.location + w.amenities + w.size + w.features + w.utilities

/-- `validateWeights`: first the sum-tolerance check, then the per-component
range checks in object insertion order. -/
def validateWeights (w : Weights) : Except WeightError Unit :=
  if 1/100 < jsAbs (sumW w - 1) then .error (.sumNotOne (sumW w))
  else if w.budget < 0 ∨ 1 < w.budget then .error (.outOfRange "budget" w.budget)
  else if w.location < 0 ∨ 1 < w.location then .error (.outOfRange "location" w.location)
  else if w.amenities < 0 ∨ 1 < w.amenities then .error (.outOfRange "amenities" w.amenities)
  else if w.size < 0 ∨ 1 < w.size then .error (.outOfRange "size" w.size)
  else if w.features < 0 ∨ 1 < w.features then .error (.outOfRange "features" w.features)
  else if w.utilities < 0 ∨ 1 < w.utilities then .error (.outOfRange "utilities" w.utilities)
  else .ok ()

def isError {ε α : Type} (e : Except ε α) : Bool :=
  match e with
  | .error _ => true
  | .ok _ => false

/-- `getConstraintsSatisfied`: criteria whose average rounded sub-score over
the match list is at least 70, pushed in source order. -/
def getConstraintsSatisfied (matchList : List PropertyMatch) : List String :=
  if matchList.length = 0 then []
  else
    let n : ℚ := matchList.length
    let avg : (MatchDetails → ℤ) → ℚ := fun f =>
      ((matchList.map fun m => ((f m.matchDetails : ℤ) : ℚ)).sum) / n
    (if 70 ≤ avg (·.budgetScore) then ["budget"] else []) ++
    (if 70 ≤ avg (·.locationScore) then ["location"] else []) ++
    (if 70 ≤ avg (·.amenityScore) then ["amenities"] else []) ++
    (if 70 ≤ avg (·.sizeScore) then ["size"] else []) ++
    (if 70 ≤ avg (·.featureScore) then ["features"] else []) ++
    (if 70 ≤ avg (·.utilityScore) then ["utilities"] else [])

/-- `calculateObjectiveValue`: mean match score normalised to `[0, 1]`. -/
def calculateObjectiveValue (matchList : List PropertyMatch) : ℚ :=
  if matchList.length = 0 then 0
  else ((matchList.map fun m => ((m.matchScore : ℤ) : ℚ)).sum / (matchList.length : ℚ)) / 100

/-- `OptimizationResult` (without the wall-clock `executionTime`). -/
structure OptimizationResult where
  matchList : List PropertyMatch
  algorithm : String
  constraintsSatisfied : List String
  objectiveValue : ℚ
  totalPropertiesEvaluated : ℕ
  feasibleSolutions : ℕ
  weights : Weights
  constraints : Constraints
  deriving DecidableEq, Repr

/-- `createEmptyResult`. -/
def createEmptyResult (constraints : Constraints) (weights : Weights) : OptimizationResult where
  matchList := []
  algorithm := "greedy_matching"
  constraintsSatisfied := []
  objectiveValue := 0
  totalPropertiesEvaluated := 0
  feasibleSolutions := 0
  weights := weights
  constraints := constraints

/-- The error the `catch` block rethrows (`Optimization failed: ...`). -/
inductive OptError where
  | wrapped (e : WeightError)
  deriving DecidableEq, Repr

/-- One record of the telemetry store
(`PerformanceMetrics` of `PerformanceMonitoringService`). -/
structure PerformanceMetrics where
  executionTime : ℚ
  memoryUsage : ℚ
  cpuUsage : ℚ
  algorithm : String
  constraintsCount : ℕ
  propertiesEvaluated : ℕ
  matchesFound : ℕ
  objectiveValue : ℚ
  success : Bool
  errorMsg : Option String
  timestamp : ℕ
  deriving DecidableEq, Repr

/-- The telemetry store state (`PerformanceMonitoringService.metrics`). -/
abbrev TelemetryStore := List PerformanceMetrics

/-- The `OptimizationResult` assembled by `optimizeMatching` on the main
path (the source binds the greedy output to a local `matches`; the embedding
repeats the call, which denotes the same value). -/
def greedyResult (cfg : Config) (constraints : Constraints) (finalWeights : Weights)
    (properties : List Property) (maxResults : ℕ) : OptimizationResult where
  matchList := greedyMatchingAlgorithm cfg constraints properties finalWeights maxResults
  algorithm := "greedy_matching"
  constraintsSatisfied :=
    getConstraintsSatisfied (greedyMatchingAlgorithm cfg constraints properties finalWeights
      maxResults)
  objectiveValue :=
    calculateObjectiveValue (greedyMatchingAlgorithm cfg constraints properties finalWeights
      maxResults)
  totalPropertiesEvaluated := properties.length
  feasibleSolutions :=
    (greedyMatchingAlgorithm cfg constraints properties finalWeights maxResults).length
  weights := finalWeights
  constraints := constraints

/-- `optimizeMatching`, with the process-wide telemetry store threaded as
explicit state.  The source's control flow is: merge weights, validate
(rethrowing a wrapped error from the `catch` block), short-circuit on an
empty eligible pool, otherwise run the greedy algorithm and assemble the
result.  No branch of the source calls
`PerformanceMonitoringService.recordMetrics`, so every branch returns the
store it was given. -/
def optimizeMatching (cfg : Config) (constraints : Constraints) (weights : PartialWeights)
    (maxResults : ℕ) (properties : List Property) (store : TelemetryStore) :
    Except OptError OptimizationResult × TelemetryStore :=
  match validateWeights (mergeWeights cfg.defaultWeights weights) with
  | .error e => (.error (.wrapped e), store)
  | .ok _ =>
    if properties.length = 0 then
      (.ok (createEmptyResult constraints (mergeWeights cfg.defaultWeights weights)), store)
    else
      (.ok (greedyResult cfg constraints (mergeWeights cfg.defaultWeights weights) properties
        maxResults), store)

/-- A tenant document as consumed by `optimizeTenantMatching`
(`Tenant.find({ "preferences.budget": { $exists: true } })`). -/
structure TenantDoc where
  _id : String
  budget : Budget
  preferredLocation : Str
  requiredAmenities : List Str
  preferredBedrooms : ℕ
  preferredBathrooms : ℕ
  features : Option FlagMap
  utilities : Option FlagMap
  deriving DecidableEq, Repr

/-- The constraints object `optimizeTenantMatching` builds per tenant. -/
def constraintsOfTenant (t : TenantDoc) : Constraints where
  budget := t.budget
  location := t.preferredLocation
  amenities := t.requiredAmenities
  bedrooms := t.preferredBedrooms
  bathrooms := t.preferredBathrooms
  features := t.features
  utilities := t.utilities
  tenantId := none

/-- One entry of the reverse-matching result (the `name` and
`preferencesSummary` display strings are outside the model). -/
structure TenantScore where
  tenantId : String
  matchScore : ℤ
  deriving DecidableEq, Repr

def tenantScoreLt (a b : TenantScore) : Bool := decide (b.matchScore < a.matchScore)

/-- `optimizeTenantMatching` (reverse matching): score every tenant against
the property with the default weights, keep rounded scores clearing the
threshold, stable-sort descending, take `maxResults`.  As with
`optimizeMatching`, no branch records telemetry, so the store passes through
unchanged. -/
def optimizeTenantMatching (cfg : Config) (property : Property) (tenants : List TenantDoc)
    (maxResults : ℕ) (store : TelemetryStore) : List TenantScore × TelemetryStore :=
  if tenants.length = 0 then ([], store)
  else
    let tenantScores := tenants.map fun t =>
      { tenantId := t._id
        matchScore := jsRound (calculateSatisfactionScore property (constraintsOfTenant t)
          cfg.defaultWeights) : TenantScore }
    let matchList :=
      (sSortBy tenantScoreLt (tenantScores.filter fun m =>
        cfg.minMatchThreshold ≤ (m.matchScore : ℚ))).take maxResults
    (matchList, store)

/-! ## The "linear programming" revision of the service

This earlier revision of `LinearProgrammingService.ts` (kept in the
repository alongside the greedy one) shares all scoring functions except the
budget score and replaces the greedy commitment with
`buildLinearProgrammingModel` / `solveLPProblem` / `convertSolutionToMatches`. -/

/-- `calculateBudgetScore` of the LP revision: 0 outside the range, otherwise
linear interpolation from 100 at `budget.min` down to 0 at `budget.max`
(with an explicit guard for a zero-width range). -/
def lpCalculateBudgetScore (rent : ℚ) (budget : Budget) : ℚ :=
  if rent < budget.min ∨ budget.max < rent then 0
  else
    let range := budget.max - budget.min
    if range = 0 then 100
    else (budget.max - rent) / range * 100

/-- `calculateSatisfactionScore` of the LP revision: identical to the greedy
one except for the budget sub-score. -/
def lpCalculateSatisfactionScore (property : Property) (constraints : Constraints)
    (weights : Weights) : ℚ :=
  let totalScore :=
    weights.budget * lpCalculateBudgetScore property.rent constraints.budget +
    weights.location * calculateLocationScore property.location constraints.location +
    weights.amenities * calculateAmenityScore property.amenities constraints.amenities +
    weights.size * calculateSizeScore property constraints +
    weights.features * calculateFeatureScore property.features constraints.features +
    weights.utilities * calculateUtilityScore property.utilities constraints.utilities
  jsMin 100 (jsMax 0 totalScore)

/-- One column of `buildConstraintMatrix`: the six 0/1 indicator entries for
a property (budget within range; location score > 30; amenity score > 50;
size score > 30; feature score > 30; utility score > 30). -/
def buildConstraintColumn (constraints : Constraints) (property : Property) : List ℚ :=
  [ if constraints.budget.min ≤ property.rent ∧ property.rent ≤ constraints.budget.max
      then 1 else 0
  , if 30 < calculateLocationScore property.location constraints.location then 1 else 0
  , if 50 < calculateAmenityScore property.amenities constraints.amenities then 1 else 0
  , if 30 < calculateSizeScore property constraints then 1 else 0
  , if 30 < calculateFeatureScore property.features constraints.features then 1 else 0
  , if 30 < calculateUtilityScore property.utilities constraints.utilities then 1 else 0 ]

/-- `checkFeasibility`: at least 4 of the 6 constraint-matrix entries of the
property's column equal 1. -/
def checkFeasibility (column : List ℚ) : Bool :=
  4 ≤ (column.filter fun e => e == 1).length

/-- One element of `propertyScores` inside `solveLPProblem`. -/
structure LPItem where
  index : ℕ
  score : ℚ
  feasible : Bool
  deriving DecidableEq, Repr

/-- The `solveLPProblem` comparator: feasible entries first, then score
descending (`a` strictly precedes `b`). -/
def lpItemLt (a b : LPItem) : Bool :=
  (a.feasible && !b.feasible) || ((a.feasible == b.feasible) && decide (b.score < a.score))

/-- The selection loop of `solveLPProblem`: walk the sorted items, commit a
feasible item clearing the threshold, stop at `maxSelections` commits.
Returns the committed indices in commitment order. -/
def selectLoop (maxSelections : ℕ) (threshold : ℚ) : List LPItem → ℕ → List ℕ
  | [], _ => []
  | item :: rest, selectedCount =>
    if maxSelections ≤ selectedCount then []
    else if item.feasible ∧ threshold ≤ item.score then
      item.index :: selectLoop maxSelections threshold rest (selectedCount + 1)
    else selectLoop maxSelections threshold rest selectedCount

/-- `solveLPProblem`: sort (index, score, feasibility) triples by the
feasibility-then-score comparator (stable), then greedily select up to
`Math.min(10, numProperties)` feasible entries clearing the threshold; the
result is the 0/1 solution vector indexed like the property list. -/
def solveLPProblem (cfg : Config) (columns : List (List ℚ)) (objectiveVector : List ℚ) :
    List ℕ :=
  let propertyScores := objectiveVector.enum.map fun p =>
    { index := p.1, score := p.2, feasible := checkFeasibility (columns.getD p.1 []) : LPItem }
  let sorted := sSortBy lpItemLt propertyScores
  let selected := selectLoop (min 10 objectiveVector.length) cfg.minMatchThreshold sorted 0
  (List.range objectiveVector.length).map fun i => if selected.contains i then 1 else 0

/-- `PropertyMatch` construction of `convertSolutionToMatches` (its
`tenantId` is `constraints.tenantId` verbatim, possibly absent). -/
def lpMkMatch (constraints : Constraints) (property : Property) (matchScore : ℚ) :
    PropertyMatch where
  propertyId := property._id
  tenantId := constraints.tenantId
  matchScore := jsRound matchScore
  matchDetails :=
    { budgetScore := jsRound (lpCalculateBudgetScore property.rent constraints.budget)
      locationScore := jsRound (calculateLocationScore property.location constraints.location)
      amenityScore := jsRound (calculateAmenityScore property.amenities constraints.amenities)
      sizeScore := jsRound (calculateSizeScore property constraints)
      featureScore := jsRound (calculateFeatureScore property.features constraints.features)
      utilityScore := jsRound (calculateUtilityScore property.utilities constraints.utilities) }

/-- The first loop of `convertSolutionToMatches`: walk the solution vector in
index order (which is the eligibility-filter order of the property list) and
push a match for every selected property whose freshly computed score clears
the threshold. -/
def lpPreMatches (cfg : Config) (solution : List ℕ) (properties : List Property)
    (constraints : Constraints) (weights : Weights) : List PropertyMatch :=
  (solution.zip properties).filterMap fun p =>
    if 0 < p.1 then
      let matchScore := lpCalculateSatisfactionScore p.2 constraints weights
      if cfg.minMatchThreshold ≤ matchScore then some (lpMkMatch constraints p.2 matchScore)
      else none
    else none

/-- Comparator `(a, b) => b.matchScore - a.matchScore` on rounded scores. -/
def matchLt (a b : PropertyMatch) : Bool := decide (b.matchScore < a.matchScore)

/-- `convertSolutionToMatches`: build the match list in solution order, then
stable-sort by rounded score descending and truncate to `maxResults`. -/
def convertSolutionToMatches (cfg : Config) (solution : List ℕ) (properties : List Property)
    (constraints : Constraints) (weights : Weights) (maxResults : ℕ) : List PropertyMatch :=
  (sSortBy matchLt (lpPreMatches cfg solution properties constraints weights)).take maxResults

/-- The assignment phase of the LP revision's `optimizeMatching`: build the
model, solve it, convert the solution. -/
def lpOptimizeMatches (cfg : Config) (constraints : Constraints) (properties : List Property)
    (weights : Weights) (maxResults : ℕ) : List PropertyMatch :=
  let columns := properties.map (buildConstraintColumn constraints)
  let objectiveVector := properties.map fun p => lpCalculateSatisfactionScore p constraints weights
  convertSolutionToMatches cfg (solveLPProblem cfg columns objectiveVector) properties
    constraints weights maxResults

/-! ## Telemetry store (`PerformanceMonitoringService`) -/

/-- `recordMetrics`: append, then trim to the most recent
`maxMetricsHistory = 1000` records. -/
def recordMetrics (store : TelemetryStore) (m : PerformanceMetrics) : TelemetryStore :=
  let store' := store ++ [m]
  if 1000 < store'.length then store'.drop (store'.length - 1000) else store'

/-- A JavaScript number that may be the result of a division by zero.  Exact
values are `num q`; `0/0` is `nan`, `q/0` for `q ≠ 0` is a signed infinity. -/
inductive JNum where
  | nan
  | posInf
  | negInf
  | num (q : ℚ)
  deriving DecidableEq, Repr

/-- JavaScript division on exact operands. -/
def jsDivQ (a b : ℚ) : JNum :=
  if b = 0 then
    if a = 0 then .nan else if 0 < a then .posInf else .negInf
  else .num (a / b)

/-- `AlgorithmPerformance` (the `lastRun` date is carried as the record's
integer timestamp). -/
structure AlgorithmPerformance where
  algorithm : String
  averageExecutionTime : JNum
  successRate : ℚ
  averageObjectiveValue : JNum
  totalRuns : ℕ
  lastRun : ℕ
  deriving DecidableEq, Repr

/-- `getAlgorithmPerformance`: statistics for one algorithm id.  The source
binds locals `algorithmMetrics` and `successfulRuns`; the embedding names
them as the definitions above.  The two averages are computed over the
successful runs only, with no guard against that set being empty
(`reduce(...) / successfulRuns.length`), hence `jsDivQ`. -/
def algorithmMetricsOf (store : TelemetryStore) (algorithm : String) : TelemetryStore :=
  store.filter fun m => m.algorithm == algorithm

def successfulRunsOf (store : TelemetryStore) (algorithm : String) : TelemetryStore :=
  (algorithmMetricsOf store algorithm).filter fun m => m.success

def getAlgorithmPerformance (store : TelemetryStore) (algorithm : String) :
    AlgorithmPerformance :=
  if (algorithmMetricsOf store algorithm).length = 0 then
    { algorithm := algorithm, averageExecutionTime := .num 0, successRate := 0
      averageObjectiveValue := .num 0, totalRuns := 0, lastRun := 0 }
  else
    { algorithm := algorithm
      averageExecutionTime :=
        jsDivQ ((successfulRunsOf store algorithm).map fun m => m.executionTime).sum
          (successfulRunsOf store algorithm).length
      successRate := (((successfulRunsOf store algorithm).length : ℚ) /
        ((algorithmMetricsOf store algorithm).length : ℚ)) * 100
      averageObjectiveValue :=
        jsDivQ ((successfulRunsOf store algorithm).map fun m => m.objectiveValue).sum
          (successfulRunsOf store algorithm).length
      totalRuns := (algorithmMetricsOf store algorithm).length
      lastRun := ((algorithmMetricsOf store algorithm).getLast?.map fun m => m.timestamp).getD 0 }

/-- `getEfficiencyScore`: over the last 100 records, `Math.round` of
`0.4 × successRate + executionTimeScore + objectiveValueScore`, where the
time term is `Math.max(0, 100 - avgTime/1000 × 30)` and the objective term
is `Math.min(30, avgObjective/100 × 30)`. -/
def getEfficiencyScore (store : TelemetryStore) : ℤ :=
  let recentMetrics := store.drop (store.length - 100)
  if recentMetrics.length = 0 then 0
  else
    let successfulRuns := recentMetrics.filter fun m => m.success
    let successRate := ((successfulRuns.length : ℚ) / (recentMetrics.length : ℚ)) * 100
    let avgExecutionTime :=
      if 0 < successfulRuns.length then
        (successfulRuns.map fun m => m.executionTime).sum / (successfulRuns.length : ℚ)
      else 0
    let avgObjectiveValue :=
      if 0 < successfulRuns.length then
        (successfulRuns.map fun m => m.objectiveValue).sum / (successfulRuns.length : ℚ)
      else 0
    let executionTimeScore := jsMax 0 (100 - avgExecutionTime / 1000 * 30)
    let objectiveValueScore := jsMin 30 (avgObjectiveValue / 100 * 30)
    let successRateScore := successRate * (4/10)
    jsRound (successRateScore + executionTimeScore + objectiveValueScore)

/-! ## Concrete inputs used by witnesses and counterexamples -/

/-- A preference with an open location and no amenity/flag requirements. -/
def exCons : Constraints where
  budget := { min := 10, max := 100 }
  location := []
  amenities := []
  bedrooms := 1
  bathrooms := 1
  features := none
  utilities := none
  tenantId := none

/-- An available listing with rent inside `exCons`'s budget and no recorded
size, scoring `95.5` against `exCons` under the default weights. -/
def exProp (id : String) : Property where
  _id := id
  rent := 50
  location := { address := none, city := none }
  bedrooms := 2
  bathrooms := 1
  size := none
  amenities := []
  features := none
  utilities := none
  status := "available"

/-- A successful telemetry record with a 100 ms run time. -/
def exMetric : PerformanceMetrics where
  executionTime := 100
  memoryUsage := 0
  cpuUsage := 0
  algorithm := "greedy_matching"
  constraintsCount := 5
  propertiesEvaluated := 1
  matchesFound := 1
  objectiveValue := 0
  success := true
  errorMsg := none
  timestamp := 1

/-- A weight override whose merge with the defaults sums to 1.65. -/
def badOverride : PartialWeights := { budget := some (9/10) }

/-- A failed telemetry record. -/
def exFailedMetric : PerformanceMetrics where
  executionTime := 12
  memoryUsage := 0
  cpuUsage := 0
  algorithm := "linear_programming"
  constraintsCount := 5
  propertiesEvaluated := 0
  matchesFound := 0
  objectiveValue := 0
  success := false
  errorMsg := some "Optimization failed: Unknown error"
  timestamp := 2

/-! ## Basic lemmas about the JS primitives -/

theorem jsMax_eq_max (a b : ℚ) : jsMax a b = max a b := by
  unfold jsMax
  split_ifs with h
  · exact (max_eq_right h.le).symm
  · exact (max_eq_left (not_lt.mp h)).symm

theorem jsMin_eq_min (a b : ℚ) : jsMin a b = min a b := by
  unfold jsMin
  split_ifs with h
  · exact (min_eq_right h.le).symm
  · exact (min_eq_left (not_lt.mp h)).symm

theorem jsAbs_eq_abs (q : ℚ) : jsAbs q = |q| := by
  unfold jsAbs
  split_ifs with h
  · exact (abs_of_neg h).symm
  · exact (abs_of_nonneg (not_lt.mp h)).symm

theorem splitOnSpace_length_pos (s : Str) : 0 < (splitOnSpace s).length := by
  cases s with
  | nil => simp [splitOnSpace]
  | cons c cs =>
    unfold splitOnSpace
    cases splitOnSpace cs with
    | nil => simp
    | cons w ws => by_cases h : c = ' ' <;> simp [h]

/-- A `k/n · c` sub-score is between `0` and `c` when `k ≤ n` and `n > 0`. -/
theorem ratioScore_bounds (k n : ℕ) (c : ℚ) (hc : 0 ≤ c) (hn : 0 < n) (hk : k ≤ n) :
    0 ≤ (k : ℚ) / (n : ℚ) * c ∧ (k : ℚ) / (n : ℚ) * c ≤ c := by
  have hn' : (0 : ℚ) < (n : ℚ) := by exact_mod_cast hn
  constructor
  · positivity
  · have h1 : (k : ℚ) / (n : ℚ) ≤ 1 := by
      rw [div_le_one hn']
      exact_mod_cast hk
    calc (k : ℚ) / (n : ℚ) * c ≤ 1 * c := mul_le_mul_of_nonneg_right h1 hc
    _ = c := one_mul c

/-! ## Stability of `sSortBy`

For a precedence predicate that never separates elements selected by `p`,
sorting does not change the `p`-selected sublist: that is exactly the
stable-sort guarantee for ties. -/

theorem filter_sInsert_pos {A : Type} (lt : A → A → Bool) (p : A → Bool) (x : A)
    (l : List A) (hx : p x = true) (h : ∀ y, p y = true → lt y x = false) :
    (sInsert lt x l).filter p = x :: l.filter p := by
  induction l with
  | nil => simp [sInsert, hx]
  | cons y ys ih =>
    unfold sInsert
    by_cases hy : lt y x = true
    · have hpy : p y = false := by
        cases hq : p y
        · rfl
        · rw [h y hq] at hy; exact absurd hy (by simp)
      simp [hy, List.filter, hpy, ih]
    · replace hy : lt y x = false := by simpa using hy
      simp [hy, List.filter, hx]

theorem filter_sInsert_neg {A : Type} (lt : A → A → Bool) (p : A → Bool) (x : A)
    (l : List A) (hx : p x = false) :
    (sInsert lt x l).filter p = l.filter p := by
  induction l with
  | nil => simp [sInsert, hx]
  | cons y ys ih =>
    unfold sInsert
    by_cases hy : lt y x = true
    · simp only [hy, if_true]
      cases hq : p y <;> simp [List.filter, hq, ih]
    · replace hy : lt y x = false := by simpa using hy
      simp [hy, List.filter, hx]

theorem sSortBy_filter {A : Type} (lt : A → A → Bool) (p : A → Bool)
    (h : ∀ a b, p a = true → p b = true → lt a b = false) (l : List A) :
    (sSortBy lt l).filter p = l.filter p := by
  induction l with
  | nil => rfl
  | cons x xs ih =>
    show (sInsert lt x (sSortBy lt xs)).filter p = _
    cases hx : p x
    · rw [filter_sInsert_neg lt p x _ hx, ih]
      simp [List.filter, hx]
    · rw [filter_sInsert_pos lt p x _ hx (fun y hy => h y x hy hx), ih]
      simp [List.filter, hx]

theorem filter_take_drop {A : Type} (p : A → Bool) (l : List A) (n : ℕ) :
    l.filter p = (l.take n).filter p ++ (l.drop n).filter p := by
  rw [← List.filter_append, List.take_append_drop]

theorem sInsert_perm {A : Type} (lt : A → A → Bool) (x : A) (l : List A) :
    (sInsert lt x l).Perm (x :: l) := by
  induction l with
  | nil => simp [sInsert]
  | cons y ys ih =>
    unfold sInsert
    split
    · exact (ih.cons y).trans (List.Perm.swap x y ys)
    · exact List.Perm.refl _

theorem sSortBy_perm {A : Type} (lt : A → A → Bool) (l : List A) :
    (sSortBy lt l).Perm l := by
  induction l with
  | nil => exact List.Perm.refl _
  | cons x xs ih =>
    exact (sInsert_perm lt x (sSortBy lt xs)).trans (ih.cons x)

theorem mem_sSortBy {A : Type} (lt : A → A → Bool) (l : List A) (a : A) :
    a ∈ sSortBy lt l ↔ a ∈ l :=
  (sSortBy_perm lt l).mem_iff

/-! ## The greedy solver collapses to a top-1 selection

`greedyMatchingAlgorithm` instantiates the two-sided greedy commitment with
a single pseudo-tenant, so after the first commitment the tenant side is
saturated and every later pair is skipped. -/

theorem eligiblePairs_tenantId (cfg : Config) (c : Constraints) (props : List Property)
    (w : Weights) (pr : ScoredPair) (h : pr ∈ eligiblePairs cfg c props w) :
    pr.tenantId = greedyTenantId c := by
  unfold eligiblePairs at h
  obtain ⟨p, _, hp⟩ := List.mem_filterMap.mp h
  by_cases hth : cfg.minMatchThreshold ≤ calculateSatisfactionScore p c w
  · rw [if_pos hth] at hp
    cases hp
    rfl
  · rw [if_neg hth] at hp
    cases hp

theorem greedyLoop_saturated (maxResults : ℕ) (l : List ScoredPair) (aT aP : List String)
    (ms : List PropertyMatch) (t : String) (hall : ∀ x ∈ l, x.tenantId = t)
    (ht : aT.contains t = true) : greedyLoop maxResults l aT aP ms = ms := by
  induction l with
  | nil => rfl
  | cons p rest ih =>
    have hpt : p.tenantId = t := hall p (by simp)
    unfold greedyLoop
    rw [hpt, ht]
    split
    · rfl
    · simp only [if_true]
      exact ih fun x hx => hall x (by simp [hx])

theorem greedy_single (cfg : Config) (c : Constraints) (props : List Property)
    (w : Weights) (maxResults : ℕ) :
    greedyMatchingAlgorithm cfg c props w maxResults =
      specTopKMatches cfg c props w (min maxResults 1) := by
  unfold greedyMatchingAlgorithm specTopKMatches
  have hall : ∀ x ∈ sortPairsDesc (eligiblePairs cfg c props w),
      x.tenantId = greedyTenantId c := by
    intro x hx
    exact eligiblePairs_tenantId cfg c props w x ((mem_sSortBy pairLt _ x).mp hx)
  cases hl : sortPairsDesc (eligiblePairs cfg c props w) with
  | nil => cases maxResults <;> simp [greedyLoop]
  | cons p rest =>
    cases maxResults with
    | zero => rfl
    | succ n =>
      have hmin : min (n + 1) 1 = 1 := by omega
      rw [hmin]
      show greedyLoop (n + 1) (p :: rest) [] [] [] = ((p :: rest).take 1).map mkMatch
      unfold greedyLoop
      simp only [List.length_nil, List.contains_nil, Bool.false_eq_true, if_false,
        Nat.not_succ_le_zero, List.nil_append]
      have hpt : p.tenantId = greedyTenantId c := by
        apply hall
        rw [hl]
        simp
      have hrest : ∀ x ∈ rest, x.tenantId = greedyTenantId c := fun x hx => by
        apply hall
        rw [hl]
        simp [hx]
      rw [greedyLoop_saturated (n + 1) rest [p.tenantId] [p.property._id] [mkMatch p]
        (greedyTenantId c) hrest (by simp [hpt])]
      simp

/-- A list with at most one element has no duplicates. -/
theorem nodup_of_length_le_one {A : Type} (l : List A) (h : l.length ≤ 1) : l.Nodup := by
  match l with
  | [] => exact List.nodup_nil
  | [x] => exact List.nodup_singleton x
  | x :: y :: r => simp at h

/-! ## Claim theorems -/

/-- C1, counterexample: with two eligible candidates (each scoring `95.5`,
well above the threshold `30`) and `maxResults = 10`, the greedy solver's
output differs from the claimed top-K selection — the greedy loop marks the
single requester as assigned after its first commitment and therefore
returns one match where the top-K selection holds two. -/
theorem greedy_differs_from_topK :
    greedyMatchingAlgorithm defaultConfig exCons [exProp "p1", exProp "p2"]
        defaultWeights 10 ≠
      specTopKMatches defaultConfig exCons [exProp "p1", exProp "p2"] defaultWeights 10 := by
  intro h
  have h1 : (greedyMatchingAlgorithm defaultConfig exCons [exProp "p1", exProp "p2"]
      defaultWeights 10).length = 1 := by with_unfolding_all rfl
  have h2 : (specTopKMatches defaultConfig exCons [exProp "p1", exProp "p2"]
      defaultWeights 10).length = 2 := by with_unfolding_all rfl
  rw [h, h2] at h1
  exact absurd h1 (by norm_num)

/-- C1, amended: in single-requester mode the assignment solver's output
equals the top-K selection with `K = min maxResults 1` — the eligible scored
candidates sorted descending by composite score (stably), truncated to a
single pick, because the per-requester capacity of one saturates after the
first commitment. -/
theorem greedy_is_top_one (cfg : Config) (c : Constraints) (props : List Property)
    (w : Weights) (maxResults : ℕ) :
    greedyMatchingAlgorithm cfg c props w maxResults =
      specTopKMatches cfg c props w (min maxResults 1) :=
  greedy_single cfg c props w maxResults

/-- C2: neither `optimizeMatching` nor `optimizeTenantMatching` ever appends
a record to the telemetry store — on every input (success, empty pool, or
validation failure alike) the store after the call equals the store before
it, contradicting the claimed mandatory `recordMetrics` step. -/
theorem optimize_leaves_telemetry_unchanged (cfg : Config) (c : Constraints)
    (ov : PartialWeights) (maxResults : ℕ) (props : List Property) (property : Property)
    (tenants : List TenantDoc) (store : TelemetryStore) :
    (optimizeMatching cfg c ov maxResults props store).2 = store ∧
    (optimizeTenantMatching cfg property tenants maxResults store).2 = store := by
  constructor
  · unfold optimizeMatching
    cases validateWeights (mergeWeights cfg.defaultWeights ov) with
    | error e => rfl
    | ok u =>
      by_cases h : props.length = 0
      · rw [if_pos h]
      · rw [if_neg h]
  · unfold optimizeTenantMatching
    by_cases h : tenants.length = 0
    · rw [if_pos h]
    · rw [if_neg h]

/-- The greedy solver reads only `minMatchThreshold` from the configuration. -/
theorem greedy_config_eq (cfg₁ cfg₂ : Config)
    (hm : cfg₁.minMatchThreshold = cfg₂.minMatchThreshold) (c : Constraints)
    (props : List Property) (w : Weights) (maxResults : ℕ) :
    greedyMatchingAlgorithm cfg₁ c props w maxResults =
      greedyMatchingAlgorithm cfg₂ c props w maxResults := by
  unfold greedyMatchingAlgorithm eligiblePairs
  rw [hm]

/-- C3: the configured `maxExecutionTime` is dead — the greedy solver and
`optimizeMatching` produce identical results under any value of the time
budget, so no run ever aborts on a timeout or is marked as one. -/
theorem maxExecutionTime_unused (cfg : Config) (t : ℕ) (c : Constraints)
    (ov : PartialWeights) (maxResults : ℕ) (props : List Property) (w : Weights)
    (store : TelemetryStore) :
    greedyMatchingAlgorithm { cfg with maxExecutionTime := t } c props w maxResults =
      greedyMatchingAlgorithm cfg c props w maxResults ∧
    optimizeMatching { cfg with maxExecutionTime := t } c ov maxResults props store =
      optimizeMatching cfg c ov maxResults props store := by
  constructor
  · exact greedy_config_eq _ _ rfl c props w maxResults
  · unfold optimizeMatching greedyResult
    simp only [show ({ cfg with maxExecutionTime := t } : Config).defaultWeights =
        cfg.defaultWeights from rfl,
      greedy_config_eq { cfg with maxExecutionTime := t } cfg rfl]

/-- C8: in single-requester mode the greedy solver returns at most
`maxResults` matches and no property id appears twice among them. -/
theorem greedy_capacity_and_distinct (cfg : Config) (c : Constraints)
    (props : List Property) (w : Weights) (maxResults : ℕ) :
    (greedyMatchingAlgorithm cfg c props w maxResults).length ≤ maxResults ∧
    ((greedyMatchingAlgorithm cfg c props w maxResults).map fun m => m.propertyId).Nodup := by
  rw [greedy_single cfg c props w maxResults]
  unfold specTopKMatches
  constructor
  · simp only [List.length_map]
    exact le_trans (List.length_take_le _ _) (min_le_left _ _)
  · apply nodup_of_length_le_one
    simp only [List.length_map]
    exact le_trans (List.length_take_le _ _) (min_le_right _ _)

/-- C4, counterexample: a rent strictly inside the budget range for which
the LP-revision scoring model returns a budget sub-score of 50, not 100 —
so the sub-score is not 100 "in every revision". -/
theorem lp_budget_not_100_within_range :
    (50000 : ℚ) ≤ 100000 ∧ (100000 : ℚ) ≤ 150000 ∧
    lpCalculateBudgetScore 100000 { min := 50000, max := 150000 } = 50 := by
  refine ⟨by norm_num, by norm_num, ?_⟩
  with_unfolding_all rfl

/-- C4, amended: for rent within `[budgetMin, budgetMax]` the greedy
revision's budget sub-score is exactly 100, while the LP revision's
interpolates linearly from 100 at `budgetMin` to 0 at `budgetMax` (100 for
a zero-width range). -/
theorem budget_score_within_range (rent : ℚ) (b : Budget)
    (h1 : b.min ≤ rent) (h2 : rent ≤ b.max) :
    calculateBudgetScore rent b = 100 ∧
    lpCalculateBudgetScore rent b =
      (if b.max - b.min = 0 then 100 else (b.max - rent) / (b.max - b.min) * 100) := by
  constructor
  · unfold calculateBudgetScore
    rw [if_pos ⟨h1, h2⟩]
  · unfold lpCalculateBudgetScore
    have hno : ¬(rent < b.min ∨ b.max < rent) := by
      push_neg
      exact ⟨h1, h2⟩
    rw [if_neg hno]

/-- C4, witness: rent 60000 within budget `[50000, 150000]` — greedy budget
score 100, LP budget score 90. -/
theorem budget_score_within_range_witness :
    calculateBudgetScore 60000 { min := 50000, max := 150000 } = 100 ∧
    lpCalculateBudgetScore 60000 { min := 50000, max := 150000 } =
      (if (150000 : ℚ) - 50000 = 0 then 100
       else ((150000 : ℚ) - 60000) / ((150000 : ℚ) - 50000) * 100) :=
  budget_score_within_range 60000 { min := 50000, max := 150000 } (by norm_num) (by norm_num)

/-- C6: a telemetry store holding one successful 100 ms run with objective
value 0 already drives `getEfficiencyScore` to 137, outside the promised
`[0, 100]` — the execution-time component is not capped at its intended 30
points (`100 - avgTime/1000·30` evaluates to 97 here, and the three
components sum to `40 + 97 + 0`). -/
theorem efficiencyScore_exceeds_100 :
    getEfficiencyScore [exMetric] = 137 ∧ 100 < getEfficiencyScore [exMetric] := by
  have h : getEfficiencyScore [exMetric] = 137 := by with_unfolding_all rfl
  refine ⟨h, ?_⟩
  rw [h]
  norm_num

/-- C10: for an algorithm id with at least one record and no successful
record, `getAlgorithmPerformance` reports a positive `totalRuns` and a zero
success rate, but both averages are the JavaScript `0/0`, i.e. `NaN` —
neither `0` nor an error. -/
theorem algorithmPerformance_nan_without_success (store : TelemetryStore) (alg : String)
    (hne : algorithmMetricsOf store alg ≠ [])
    (hfail : ∀ m ∈ algorithmMetricsOf store alg, m.success = false) :
    0 < (getAlgorithmPerformance store alg).totalRuns ∧
    (getAlgorithmPerformance store alg).successRate = 0 ∧
    (getAlgorithmPerformance store alg).averageExecutionTime = JNum.nan ∧
    (getAlgorithmPerformance store alg).averageObjectiveValue = JNum.nan := by
  have hlen : ¬(algorithmMetricsOf store alg).length = 0 := by
    simpa [List.length_eq_zero] using hne
  have hsucc : successfulRunsOf store alg = [] := by
    unfold successfulRunsOf
    exact List.filter_eq_nil_iff.mpr fun m hm => by simp [hfail m hm]
  unfold getAlgorithmPerformance
  rw [if_neg hlen, hsucc]
  refine ⟨Nat.pos_of_ne_zero hlen, ?_, ?_, ?_⟩
  · simp
  · simp [jsDivQ]
  · simp [jsDivQ]

/-- C10, witness: a store holding exactly one failed `linear_programming`
record has one total run, success rate 0, and `NaN` averages. -/
theorem algorithmPerformance_nan_witness :
    0 < (getAlgorithmPerformance [exFailedMetric] "linear_programming").totalRuns ∧
    (getAlgorithmPerformance [exFailedMetric] "linear_programming").successRate = 0 ∧
    (getAlgorithmPerformance [exFailedMetric] "linear_programming").averageExecutionTime
      = JNum.nan ∧
    (getAlgorithmPerformance [exFailedMetric] "linear_programming").averageObjectiveValue
      = JNum.nan :=
  algorithmPerformance_nan_without_success [exFailedMetric] "linear_programming"
    (by with_unfolding_all decide) (by with_unfolding_all decide)

/-- C7: `validateWeights` rejects a merged weight vector exactly when the
six components sum more than 0.01 away from 1 or some component is outside
`[0, 1]`; and in `optimizeMatching` the check precedes every use of the
candidate pool — with invalid weights the call fails and its outcome is
identical for any two pools, so no candidate is ever touched. -/
theorem validateWeights_iff_and_first (w : Weights) :
    (isError (validateWeights w) = true ↔
      (1/100 < |sumW w - 1| ∨
       (w.budget < 0 ∨ 1 < w.budget) ∨
       (w.location < 0 ∨ 1 < w.location) ∨
       (w.amenities < 0 ∨ 1 < w.amenities) ∨
       (w.size < 0 ∨ 1 < w.size) ∨
       (w.features < 0 ∨ 1 < w.features) ∨
       (w.utilities < 0 ∨ 1 < w.utilities))) ∧
    (∀ cfg c ov maxResults props props' store,
      isError (validateWeights (mergeWeights cfg.defaultWeights ov)) = true →
      isError (optimizeMatching cfg c ov maxResults props store).1 = true ∧
      optimizeMatching cfg c ov maxResults props store =
        optimizeMatching cfg c ov maxResults props' store) := by
  constructor
  · unfold validateWeights
    rw [jsAbs_eq_abs]
    split_ifs with h1 h2 h3 h4 h5 h6 h7 <;>
      first
      | exact iff_of_true rfl (by tauto)
      | exact iff_of_false (fun hc => Bool.false_ne_true hc) (by tauto)
  · intro cfg c ov maxResults props props' store hbad
    unfold optimizeMatching
    cases hv : validateWeights (mergeWeights cfg.defaultWeights ov) with
    | error e => exact ⟨rfl, rfl⟩
    | ok u =>
      rw [hv] at hbad
      exact absurd hbad (by simp [isError])

/-- C7, witness: overriding the budget weight to 0.9 makes the merged vector
sum to 1.65; the run fails and its outcome is the same with one candidate as
with none. -/
theorem validateWeights_witness :
    isError (optimizeMatching defaultConfig exCons badOverride 10 [exProp "p1"] []).1
      = true ∧
    optimizeMatching defaultConfig exCons badOverride 10 [exProp "p1"] [] =
      optimizeMatching defaultConfig exCons badOverride 10 [] [] :=
  (validateWeights_iff_and_first (mergeWeights defaultConfig.defaultWeights badOverride)).2
    defaultConfig exCons badOverride 10 [exProp "p1"] [] []
    (by with_unfolding_all rfl)

/-- C9: tie stability of the LP-revision pipeline.  For every rounded score
value `k`, the matches scoring `k` in the final output of the assignment
phase appear in exactly their order in `lpPreMatches` — which enumerates the
candidates in eligibility-filter order — as an initial segment of that list:
equal-score candidates are never reordered, because the final sort is
stable and the pre-sort list follows the candidate order. -/
theorem lp_matches_tie_stable (cfg : Config) (c : Constraints) (props : List Property)
    (w : Weights) (maxResults : ℕ) (k : ℤ) :
    ∃ rest,
      (lpPreMatches cfg
          (solveLPProblem cfg (props.map (buildConstraintColumn c))
            (props.map fun p => lpCalculateSatisfactionScore p c w))
          props c w).filter (fun m => m.matchScore == k) =
        (lpOptimizeMatches cfg c props w maxResults).filter (fun m => m.matchScore == k)
          ++ rest := by
  have hcompat : ∀ a b : PropertyMatch, (a.matchScore == k) = true →
      (b.matchScore == k) = true → matchLt a b = false := by
    intro a b ha hb
    have ha' : a.matchScore = k := by exact_mod_cast beq_iff_eq.mp ha
    have hb' : b.matchScore = k := by exact_mod_cast beq_iff_eq.mp hb
    simp [matchLt, ha', hb']
  refine ⟨((sSortBy matchLt (lpPreMatches cfg
      (solveLPProblem cfg (props.map (buildConstraintColumn c))
        (props.map fun p => lpCalculateSatisfactionScore p c w))
      props c w)).drop maxResults).filter (fun m => m.matchScore == k), ?_⟩
  unfold lpOptimizeMatches convertSolutionToMatches
  rw [← sSortBy_filter matchLt (fun m => m.matchScore == k) hcompat]
  exact filter_take_drop _ _ maxResults

/-! ## Sub-score range lemmas (C5) -/

theorem jsMax_zero_bounds (x : ℚ) (hx : x ≤ 100) : 0 ≤ jsMax 0 x ∧ jsMax 0 x ≤ 100 := by
  rw [jsMax_eq_max]
  exact ⟨le_max_left 0 x, max_le (by norm_num) hx⟩

theorem calculateBudgetScore_bounds (rent : ℚ) (b : Budget)
    (hmin : 0 ≤ b.min) (hmax : 0 ≤ b.max) :
    0 ≤ calculateBudgetScore rent b ∧ calculateBudgetScore rent b ≤ 100 := by
  simp only [calculateBudgetScore]
  split_ifs with h1 h2 h3 h4 h5
  · norm_num
  · norm_num
  · apply jsMax_zero_bounds
    have hpos : 0 < b.min * (1/2) := by
      rcases lt_or_eq_of_le hmin with h | h
      · positivity
      · exact absurd (by rw [← h]; ring) h3
    have hnum : 0 ≤ b.min - rent := by linarith
    have hx : 0 ≤ (b.min - rent) / (b.min * (1/2)) * 100 :=
      mul_nonneg (div_nonneg hnum hpos.le) (by norm_num)
    linarith
  · norm_num
  · apply jsMax_zero_bounds
    have hpos : 0 < b.max * (1/2) := by
      rcases lt_or_eq_of_le hmax with h | h
      · positivity
      · exact absurd (by rw [← h]; ring) h5
    have hnum : 0 ≤ rent - b.max := by linarith
    have hx : 0 ≤ (rent - b.max) / (b.max * (1/2)) * 100 :=
      mul_nonneg (div_nonneg hnum hpos.le) (by norm_num)
    linarith
  · norm_num

theorem calculateAmenityScore_bounds (pa ra : List Str) :
    0 ≤ calculateAmenityScore pa ra ∧ calculateAmenityScore pa ra ≤ 100 := by
  simp only [calculateAmenityScore]
  split_ifs with h
  · norm_num
  · have hne : ra ≠ [] := by
      intro hra
      rw [hra] at h
      simp at h
    have hn : 0 < (ra.map lower).length := by
      rw [List.length_map]
      exact List.length_pos.mpr hne
    exact ratioScore_bounds _ _ 100 (by norm_num) hn (List.length_filter_le _ _)

theorem calculateSizeScore_bounds (p : Property) (c : Constraints) :
    0 ≤ calculateSizeScore p c ∧ calculateSizeScore p c ≤ 100 := by
  rcases hp : p.size with _ | s <;> simp only [calculateSizeScore, hp]
  · norm_num
  · split_ifs with h0
    · norm_num
    · apply jsMax_zero_bounds
      have hpos : 0 < ((c.bedrooms : ℚ) * 40 + 20) * (1/2) := by positivity
      have habs : 0 ≤ jsAbs (s - ((c.bedrooms : ℚ) * 40 + 20)) := by
        rw [jsAbs_eq_abs]
        exact abs_nonneg _
      have hx : 0 ≤ jsAbs (s - ((c.bedrooms : ℚ) * 40 + 20)) /
          (((c.bedrooms : ℚ) * 40 + 20) * (1/2)) * 100 :=
        mul_nonneg (div_nonneg habs hpos.le) (by norm_num)
      linarith

theorem calculateFeatureScore_bounds (pf rf : Option FlagMap) :
    0 ≤ calculateFeatureScore pf rf ∧ calculateFeatureScore pf rf ≤ 100 := by
  cases rf with
  | none => simp [calculateFeatureScore]
  | some req =>
    cases pf with
    | none => simp [calculateFeatureScore]
    | some flags =>
      simp only [calculateFeatureScore]
      split_ifs with h
      · norm_num
      · exact ratioScore_bounds _ _ 100 (by norm_num) (Nat.pos_of_ne_zero h)
          (List.length_filter_le _ _)

theorem calculateUtilityScore_bounds (pu ru : Option FlagMap) :
    0 ≤ calculateUtilityScore pu ru ∧ calculateUtilityScore pu ru ≤ 100 := by
  cases ru with
  | none => simp [calculateUtilityScore]
  | some req =>
    cases pu with
    | none => simp [calculateUtilityScore]
    | some flags =>
      simp only [calculateUtilityScore]
      split_ifs with h
      · norm_num
      · exact ratioScore_bounds _ _ 100 (by norm_num) (Nat.pos_of_ne_zero h)
          (List.length_filter_le _ _)

theorem calculateLocationScore_bounds (loc : PropLocation) (pref : Str) :
    0 ≤ calculateLocationScore loc pref ∧
    ((locMatchingWords loc pref).length ≤ (locPreferredWords pref).length →
      calculateLocationScore loc pref ≤ 100) := by
  simp only [calculateLocationScore]
  split_ifs with h1 h2 h3 h4
  · exact ⟨by norm_num, fun _ => by norm_num⟩
  · exact ⟨by norm_num, fun _ => by norm_num⟩
  · exact ⟨by norm_num, fun _ => by norm_num⟩
  · have hn : 0 < (locPreferredWords pref).length := splitOnSpace_length_pos _
    constructor
    · positivity
    · intro hk
      have := (ratioScore_bounds _ _ 60 (by norm_num) hn hk).2
      linarith
  · exact ⟨by norm_num, fun _ => by norm_num⟩

/-- C5, counterexample: a city of four words each sharing a substring with
one of the two preference words gives a location sub-score of
`(4 / 2) · 60 = 120 > 100`. -/
theorem locationScore_exceeds_100 :
    calculateLocationScore { address := some [], city := some (str "x1 x2 x3 y1") }
      (str "x y") = 120 ∧
    ¬(calculateLocationScore { address := some [], city := some (str "x1 x2 x3 y1") }
      (str "x y") ≤ 100) := by
  have h : calculateLocationScore { address := some [], city := some (str "x1 x2 x3 y1") }
      (str "x y") = 120 := by with_unfolding_all rfl
  refine ⟨h, ?_⟩
  rw [h]
  norm_num

/-- C5, amended: the budget (given the schema invariant of non-negative
budget bounds), amenity, size, feature and utility sub-scores each
lie in `[0, 100]`; the location sub-score is always non-negative, and lies
in `[0, 100]` whenever its partial-match branch finds at most as many
matching city words as the preference has words.  That bound does not hold
unconditionally: `locationScore_exceeds_100` exhibits an input scoring 120,
so the claimed `[0, 100]` range fails for the location sub-score in
general (though not at every input with more matching city words than
preference words — city `"aa ab ac"` against preference `"a b"` scores
`(3/2)·60 = 90`). -/
theorem subscores_in_range (p : Property) (c : Constraints)
    (hmin : 0 ≤ c.budget.min) (hmax : 0 ≤ c.budget.max)
    (hwords : (locMatchingWords p.location c.location).length ≤
      (locPreferredWords c.location).length) :
    (0 ≤ calculateBudgetScore p.rent c.budget ∧
      calculateBudgetScore p.rent c.budget ≤ 100) ∧
    (0 ≤ calculateLocationScore p.location c.location ∧
      calculateLocationScore p.location c.location ≤ 100) ∧
    (0 ≤ calculateAmenityScore p.amenities c.amenities ∧
      calculateAmenityScore p.amenities c.amenities ≤ 100) ∧
    (0 ≤ calculateSizeScore p c ∧ calculateSizeScore p c ≤ 100) ∧
    (0 ≤ calculateFeatureScore p.features c.features ∧
      calculateFeatureScore p.features c.features ≤ 100) ∧
    (0 ≤ calculateUtilityScore p.utilities c.utilities ∧
      calculateUtilityScore p.utilities c.utilities ≤ 100) :=
  ⟨calculateBudgetScore_bounds p.rent c.budget hmin hmax,
    ⟨(calculateLocationScore_bounds p.location c.location).1,
      (calculateLocationScore_bounds p.location c.location).2 hwords⟩,
    calculateAmenityScore_bounds p.amenities c.amenities,
    calculateSizeScore_bounds p c,
    calculateFeatureScore_bounds p.features c.features,
    calculateUtilityScore_bounds p.utilities c.utilities⟩

/-- C5, witness: the sub-score ranges at the concrete listing `exProp "p1"`
and preference `exCons`. -/
theorem subscores_in_range_witness :
    (0 ≤ calculateBudgetScore (exProp "p1").rent exCons.budget ∧
      calculateBudgetScore (exProp "p1").rent exCons.budget ≤ 100) ∧
    (0 ≤ calculateLocationScore (exProp "p1").location exCons.location ∧
      calculateLocationScore (exProp "p1").location exCons.location ≤ 100) ∧
    (0 ≤ calculateAmenityScore (exProp "p1").amenities exCons.amenities ∧
      calculateAmenityScore (exProp "p1").amenities exCons.amenities ≤ 100) ∧
    (0 ≤ calculateSizeScore (exProp "p1") exCons ∧
      calculateSizeScore (exProp "p1") exCons ≤ 100) ∧
    (0 ≤ calculateFeatureScore (exProp "p1").features exCons.features ∧
      calculateFeatureScore (exProp "p1").features exCons.features ≤ 100) ∧
    (0 ≤ calculateUtilityScore (exProp "p1").utilities exCons.utilities ∧
      calculateUtilityScore (exProp "p1").utilities exCons.utilities ≤ 100) :=
  subscores_in_range (exProp "p1") exCons (by with_unfolding_all decide)
    (by with_unfolding_all decide) (by with_unfolding_all decide)

end RentMatch
